import Mathlib

/-!
Shallow embedding of `src/bellesub.py` (Belle job submission helper).

The Python module has four operations relevant to the specification:

* `get_mdst_list` — validates `event_type` / `data_type` against the fixed
  enumerations, builds a catalog URL, fetches it, and then (line 56) evaluates
  `len(mdst)` where only `mdst_list` is bound — a `NameError`.
* `create_dir` — creates a directory, clearing a non-empty existing one
  depending on the `clear` flag and, under the `ask` policy, on an interactive
  response.
* `create_jobs` — builds one `bsub` command string per input file; note that
  the command template hard-codes `-q s` (the `q` parameter is unused), and
  that line 120 logs `cmdlist[0]` unconditionally (an `IndexError` on an empty
  input list).
* `submit_jobs` — dispatches the commands through a worker pool; results are
  appended by the completion callback in completion order, and the failure
  loop runs `failed += cmdlist[i]`, which extends the list with the characters
  of the command string.

Python exceptions are modelled by `PyErr`; the filesystem, the interactive
prompt, the catalog fetch and the process exit statuses are passed in as
explicit oracles.  Machine effects (logging, progress bars) are dropped; the
network trace of `get_mdst_list` is returned explicitly so that "before any
network call" is statable.
-/

namespace Bellesub

/-- Python exceptions raised by the embedded code. -/
inductive PyErr : Type
  | valueError (msg : String)
  | nameError (name : String)
  | indexError
deriving DecidableEq

/-- Belle event types (`BELLE_EVENT_TYPES`, bellesub.py line 18). -/
def BELLE_EVENT_TYPES : List String :=
  ["Any", "evtgen-mixed", "evtgen-charged", "evtgen-charm", "evtgen-uds"]

/-- Belle data types (`BELLE_DATA_TYPES`, bellesub.py line 21). -/
def BELLE_DATA_TYPES : List String :=
  ["Any", "on_resonance"]

/-- The Monte-Carlo catalog URL built at bellesub.py line 50. -/
def mc_url (exp run_start run_end : Int)
    (event_type data_type belle_level stream : String) : String :=
  "http://bweb3.cc.kek.jp/montecarlo.php?ex=" ++ toString exp ++
    "&rs=" ++ toString run_start ++ "&re=" ++ toString run_end ++
    "&ty=" ++ event_type ++ "&dt=" ++ data_type ++
    "&bl=" ++ belle_level ++ "&st=" ++ stream

/-- The measured-data catalog URL built at bellesub.py line 53. -/
def data_url (exp run_start run_end : Int)
    (skim data_type belle_level : String) : String :=
  "http://bweb3.cc.kek.jp/mdst.php?ex=" ++ toString exp ++
    "&rs=" ++ toString run_start ++ "&re=" ++ toString run_end ++
    "&skm=" ++ skim ++ "&dt=" ++ data_type ++ "&bl=" ++ belle_level

/-- Embedding of `get_mdst_list` (bellesub.py lines 23-60).  `fetch` is the catalog
lookup `b2c.parse_process_url`.  The result pairs the Python return value (or
raised exception) with the list of URLs actually fetched, in order, so that
"before any network call" is visible in the model.

After the two validation checks the Python `assert` statements at lines 49
and 52 re-check membership in the same lists and therefore always pass.
Line 56 then evaluates `len(mdst)`, but no name `mdst` is bound anywhere in
the module (the fetch result is bound to `mdst_list`), so every execution
that reaches the lookup raises `NameError`. -/
def get_mdst_list (fetch : String → List String) (is_data : Bool) (exp : Int)
    (run_start run_end : Int) (event_type data_type : String)
    (belle_level stream skim : String) :
    Except PyErr (List String) × List String :=
  if event_type ∉ BELLE_EVENT_TYPES then
    (.error (.valueError ("Invalid event_type: " ++ event_type)), [])
  else if data_type ∉ BELLE_DATA_TYPES then
    (.error (.valueError ("Invalid data_type: " ++ data_type)), [])
  else
    let url := if !is_data then
        mc_url exp run_start run_end event_type data_type belle_level stream
      else
        data_url exp run_start run_end skim data_type belle_level
    let mdst_list := fetch url
    (.error (.nameError "mdst"), [url])

/-- Whether the result is a raised `ValueError`. -/
def isValueError : Except PyErr (List String) → Bool
  | .error (.valueError _) => true
  | _ => false

/-- Python whitespace, as stripped by `str.strip()`. -/
def PY_WHITESPACE : List Char := [' ', '\t', '\n', '\x0b', '\x0c', '\r']

/-- Whether a character is Python whitespace. -/
def isPySpace (c : Char) : Bool := PY_WHITESPACE.contains c

/-- Python string strip: remove leading and trailing whitespace. -/
def pyStrip (s : String) : String :=
  ⟨((s.data.dropWhile isPySpace).reverse.dropWhile isPySpace).reverse⟩

/-- Python lowercasing of one ASCII character. -/
def pyLowerChar (c : Char) : Char :=
  if 'A' ≤ c ∧ c ≤ 'Z' then Char.ofNat (c.toNat + 32) else c

/-- Python string lowercasing. -/
def pyLower (s : String) : String := ⟨s.data.map pyLowerChar⟩

/-- Python startswith test on strings. -/
def pyStartsWith (s pre : String) : Bool := pre.data.isPrefixOf s.data

/-- Python endswith test on strings. -/
def pyEndsWith (s suf : String) : Bool := suf.data.isSuffixOf s.data

/-- The `choice` local of `create_dir` (bellesub.py lines 90-98): the
interactive response (stripped and lowercased) when `clear` is `ask`,
the string `y` when `clear` is `yes`, and the string `n` when `clear` is
`no` or any other value. -/
def create_dir_choice (clear resp : String) : String :=
  if clear = "ask" then pyLower (pyStrip resp)
  else if clear = "yes" then "y"
  else if clear = "no" then "n"
  else "n"

/-- Whether `create_dir` (bellesub.py lines 83-103) runs
`shutil.rmtree(path)`, i.e. removes the contents of the directory.  `is_dir`
and `listdir` are the filesystem oracle (`os.path.isdir(path)` and
`os.listdir(path)`), and `resp` is the interactive response returned by
`input(...)` when the prompt is reached (under the `ask` policy only). -/
def create_dir_clears (is_dir : Bool) (listdir : List String)
    (clear resp : String) : Bool :=
  if is_dir ∧ 0 < listdir.length then
    create_dir_choice clear resp == "" ||
      pyStartsWith (create_dir_choice clear resp) "y"
  else
    false

/-- POSIX basename, as in os.path: the part of the path after the last slash. -/
def basename (s : String) : String :=
  ⟨(s.data.reverse.takeWhile (fun c => c != '/')).reverse⟩

/-- POSIX path join, as in os.path, on two components. -/
def pjoin (a b : String) : String :=
  if pyStartsWith b "/" then b
  else if a = "" then b
  else if pyEndsWith a "/" then a ++ b
  else a ++ "/" ++ b

/-- The per-input log file path, bellesub.py line 115: the join of
`outdir` with the basename of the input followed by `.log`. -/
def logfile_path (outdir infile : String) : String :=
  pjoin outdir (basename infile ++ ".log")

/-- The per-input output file path, bellesub.py line 116: the join of
`outdir` with `ntuple.` followed by the basename of the input. -/
def outfile_path (outdir infile : String) : String :=
  pjoin outdir ("ntuple." ++ basename infile)

/-- The command string built at bellesub.py line 117.  The f-string embeds
the literal queue `s` (`bsub -q s`); the `q` parameter of `create_jobs` does
not occur in it. -/
def job_cmd (outdir script b2opt infile : String) : String :=
  "bsub -q s -oo " ++ logfile_path outdir infile ++ " basf2 " ++ b2opt ++
    " " ++ script ++ " " ++ infile ++ " " ++ outfile_path outdir infile ++
    " >> bsub.log"

/-- Embedding of `create_jobs` (bellesub.py lines 105-121).  After the loop, line 120
logs `cmdlist[0]`, which raises `IndexError` when `infiles` is empty; the
function performs no filesystem access and no validation. -/
def create_jobs (outdir script : String) (infiles : List String)
    (q b2opt : String) : Except PyErr (List String) :=
  let cmdlist := infiles.map (fun infile => job_cmd outdir script b2opt infile)
  if cmdlist.isEmpty then .error .indexError else .ok cmdlist

/-- Variant of `create_jobs` with the filesystem made visible as an existence oracle
`fs_exists` (true on the paths that exist).  The Python function makes no
filesystem call at all, so the oracle is never consulted; it is threaded
here only so that claims about missing directories or scripts are
statable. -/
def create_jobsFS (fs_exists : String → Bool) (outdir script : String)
    (infiles : List String) (q b2opt : String) : Except PyErr (List String) :=
  create_jobs outdir script infiles q b2opt

/-- The results list of `submit_jobs` (bellesub.py lines 159-169): the
completion callback appends one exit status per job in completion order.
`order` lists the job indices in the order they complete, and
`exit_status i` is the exit status of job `i` of `cmdlist`. -/
def dispatch_results (order : List Nat) (exit_status : Nat → Nat) : List Nat :=
  order.map exit_status

/-- The `failed` collection of `submit_jobs` (bellesub.py lines 173-176):
`for i in range(len(results)): if results[i] != 0: failed += cmdlist[i]`.
Since `cmdlist[i]` is a string, `failed += cmdlist[i]` extends the list
with the characters of that string, so `failed` is a list of characters.
The `assert len(results) == len(cmdlist)` at line 172 makes the index-wise
pairing a zip. -/
def failed_of (cmdlist : List String) (results : List Nat) : List Char :=
  (results.zip cmdlist).foldl
    (fun acc p => if p.1 ≠ 0 then acc ++ p.2.data else acc) []

/-- Embedding of `submit_jobs` (bellesub.py lines 150-182), returning the `failed`
collection it computes.  `order` lists the jobs of the pool in completion
order (a permutation of the job indices when every job completes). -/
def submit_jobs (cmdlist : List String) (order : List Nat)
    (exit_status : Nat → Nat) : List Char :=
  failed_of cmdlist (dispatch_results order exit_status)

/-- The job total reported by `submit_jobs` (bellesub.py lines 156, 159):
the length of `cmdlist`. -/
def dispatch_total (cmdlist : List String) : Nat := cmdlist.length

end Bellesub

open Bellesub

/-- Left cancellation for string append. -/
lemma str_append_left_cancel {a x y : String} (h : a ++ x = a ++ y) : x = y := by
  have hd := congrArg String.data h
  simp only [String.data_append, List.append_cancel_left_eq] at hd
  exact String.ext hd

/-- Right cancellation for string append. -/
lemma str_append_right_cancel {x y s : String} (h : x ++ s = y ++ s) : x = y := by
  have hd := congrArg String.data h
  simp only [String.data_append, List.append_cancel_right_eq] at hd
  exact String.ext hd

/-- A basename contains no slash. -/
lemma basename_no_slash (s : String) : '/' ∉ (basename s).data := by
  intro hmem
  have hmem2 : '/' ∈ (s.data.reverse.takeWhile (fun c => c != '/')).reverse := hmem
  rw [List.mem_reverse] at hmem2
  have := List.mem_takeWhile_imp hmem2
  simp at this

/-- Strings whose first character is not a slash do not start with one. -/
lemma pyStartsWith_slash_false (s : String)
    (hs : ∀ c, s.data.head? = some c → c ≠ '/') : pyStartsWith s "/" = false := by
  unfold pyStartsWith
  cases hd : s.data with
  | nil => rfl
  | cons c t =>
    have hc : c ≠ '/' := hs c (by rw [hd]; rfl)
    show List.isPrefixOf ['/'] (c :: t) = false
    simp [List.isPrefixOf]
    exact fun e => hc e.symm

/-- A slash-free name with the log suffix appended does not start with a slash. -/
lemma log_arg_no_slash (b : String) (hb : '/' ∉ b.data) :
    pyStartsWith (b ++ ".log") "/" = false := by
  apply pyStartsWith_slash_false
  intro c hc
  rw [String.data_append] at hc
  cases hbd : b.data with
  | nil =>
    rw [hbd] at hc
    simp at hc
    subst hc
    decide
  | cons a t =>
    rw [hbd] at hc
    simp at hc
    subst hc
    exact fun e => hb (by rw [hbd, e]; exact List.mem_cons_self _ _)

/-- A name with the ntuple marker prepended does not start with a slash. -/
lemma ntuple_arg_no_slash (b : String) :
    pyStartsWith ("ntuple." ++ b) "/" = false := by
  apply pyStartsWith_slash_false
  intro c hc
  rw [String.data_append] at hc
  simp at hc
  subst hc
  decide

/-- For components that do not start with a slash, joining onto a fixed
directory is injective in the component. -/
lemma pjoin_right_cancel (a : String) {x y : String}
    (hx : pyStartsWith x "/" = false) (hy : pyStartsWith y "/" = false)
    (h : pjoin a x = pjoin a y) : x = y := by
  unfold pjoin at h
  have hx2 : ¬ (pyStartsWith x "/" = true) := by simp [hx]
  have hy2 : ¬ (pyStartsWith y "/" = true) := by simp [hy]
  rw [if_neg hx2, if_neg hy2] at h
  by_cases ha : a = ""
  · rwa [if_pos ha, if_pos ha] at h
  · rw [if_neg ha, if_neg ha] at h
    by_cases hsl : pyEndsWith a "/" = true
    · rw [if_pos hsl, if_pos hsl] at h
      exact str_append_left_cancel h
    · rw [if_neg hsl, if_neg hsl] at h
      exact str_append_left_cancel h

/-- C5 (counterexample): the claim that distinct input file paths always
yield distinct output and log paths fails on the code: two distinct input
paths sharing a basename are mapped by `create_jobs` to the same log path
and the same output path. -/
theorem C5_counterexample :
    ("a/x.mdst" : String) ≠ "b/x.mdst" ∧
    logfile_path "out" "a/x.mdst" = logfile_path "out" "b/x.mdst" ∧
    outfile_path "out" "a/x.mdst" = outfile_path "out" "b/x.mdst" := by
  decide

/-- C5 (amended): the Job Builder path derivation is injective on
basenames: input file paths with distinct basenames yield distinct log
paths and distinct output paths, for any output directory. -/
theorem C5_basename_injective (outdir i1 i2 : String)
    (h : basename i1 ≠ basename i2) :
    logfile_path outdir i1 ≠ logfile_path outdir i2 ∧
    outfile_path outdir i1 ≠ outfile_path outdir i2 := by
  constructor
  · intro he
    apply h
    have hc : basename i1 ++ ".log" = basename i2 ++ ".log" :=
      pjoin_right_cancel outdir (log_arg_no_slash _ (basename_no_slash i1))
        (log_arg_no_slash _ (basename_no_slash i2)) he
    exact str_append_right_cancel hc
  · intro he
    apply h
    have hc : "ntuple." ++ basename i1 = "ntuple." ++ basename i2 :=
      pjoin_right_cancel outdir (ntuple_arg_no_slash _) (ntuple_arg_no_slash _) he
    exact str_append_left_cancel hc

/-- C5 (witness): the amended injectivity at concrete inputs with distinct
basenames. -/
theorem C5_basename_injective_witness :
    basename "a/x.mdst" ≠ basename "a/y.mdst" ∧
    (logfile_path "out" "a/x.mdst" ≠ logfile_path "out" "a/y.mdst" ∧
      outfile_path "out" "a/x.mdst" ≠ outfile_path "out" "a/y.mdst") :=
  ⟨by decide, C5_basename_injective "out" "a/x.mdst" "a/y.mdst" (by decide)⟩

/-- C3: for every query whose event type or data type is outside the fixed
enumerations, `get_mdst_list` raises the validation error (a Python
`ValueError`) and performs no network fetch, for every catalog oracle. -/
theorem C3_validation_before_network (fetch : String → List String)
    (is_data : Bool) (exp run_start run_end : Int)
    (event_type data_type belle_level stream skim : String)
    (h : event_type ∉ BELLE_EVENT_TYPES ∨ data_type ∉ BELLE_DATA_TYPES) :
    isValueError (get_mdst_list fetch is_data exp run_start run_end event_type
      data_type belle_level stream skim).1 = true ∧
    (get_mdst_list fetch is_data exp run_start run_end event_type data_type
      belle_level stream skim).2 = [] := by
  unfold get_mdst_list
  by_cases he : event_type ∈ BELLE_EVENT_TYPES
  · have hd : data_type ∉ BELLE_DATA_TYPES := h.resolve_left (fun hne => hne he)
    rw [if_neg (not_not_intro he), if_pos hd]
    exact ⟨rfl, rfl⟩
  · rw [if_pos he]
    exact ⟨rfl, rfl⟩

/-- C3 (witness): validation failure at a concrete invalid event type, with
an empty network trace. -/
theorem C3_validation_before_network_witness :
    (("bogus" : String) ∉ BELLE_EVENT_TYPES ∨ ("Any" : String) ∉ BELLE_DATA_TYPES) ∧
    (isValueError (get_mdst_list (fun _ => []) true 65 1 9999 "bogus" "Any"
        "caseB" "0" "HadronBorJ").1 = true ∧
      (get_mdst_list (fun _ => []) true 65 1 9999 "bogus" "Any" "caseB" "0"
        "HadronBorJ").2 = []) :=
  ⟨Or.inl (by decide),
    C3_validation_before_network (fun _ => []) true 65 1 9999 "bogus" "Any"
      "caseB" "0" "HadronBorJ" (Or.inl (by decide))⟩

/-- C4: for every query with valid event type and data type, and every
catalog oracle, `get_mdst_list` never returns the fetched list: line 56
evaluates `len(mdst)` with the name `mdst` unbound, so the call raises a
`NameError` on every path that reaches the catalog lookup. -/
theorem C4_name_error_after_lookup (fetch : String → List String)
    (is_data : Bool) (exp run_start run_end : Int)
    (event_type data_type belle_level stream skim : String)
    (he : event_type ∈ BELLE_EVENT_TYPES) (hd : data_type ∈ BELLE_DATA_TYPES) :
    (get_mdst_list fetch is_data exp run_start run_end event_type data_type
      belle_level stream skim).1 = .error (.nameError "mdst") := by
  unfold get_mdst_list
  rw [if_neg (not_not_intro he), if_neg (not_not_intro hd)]

/-- C4 (witness): the `NameError` at a concrete valid query. -/
theorem C4_name_error_after_lookup_witness :
    (("Any" : String) ∈ BELLE_EVENT_TYPES ∧ ("Any" : String) ∈ BELLE_DATA_TYPES) ∧
    (get_mdst_list (fun _ => []) true 65 1 9999 "Any" "Any" "caseB" "0"
      "HadronBorJ").1 = .error (.nameError "mdst") :=
  ⟨⟨by decide, by decide⟩,
    C4_name_error_after_lookup (fun _ => []) true 65 1 9999 "Any" "Any"
      "caseB" "0" "HadronBorJ" (by decide) (by decide)⟩

/-- When every exit status is zero the failure loop appends nothing. -/
lemma failed_of_all_zero :
    ∀ (results : List Nat) (cmdlist : List String),
      (∀ r ∈ results, r = 0) → failed_of cmdlist results = []
  | [], _, _ => rfl
  | _ :: _, [], _ => rfl
  | r :: rs, c :: cs, h => by
    have hr : r = 0 := h r (by simp)
    have ih := failed_of_all_zero rs cs (fun x hx => h x (by simp [hx]))
    unfold failed_of at ih ⊢
    simp only [List.zip_cons_cons, List.foldl_cons]
    rw [if_neg (by simp [hr])]
    exact ih

/-- C8: for every dispatched job sequence in which every external
invocation reports exit status zero, in any completion order, the failed
collection of `submit_jobs` is empty and the reported total is the number
of jobs. -/
theorem C8_all_success_no_failed (cmdlist : List String) (order : List Nat)
    (exit_status : Nat → Nat) (h : ∀ i ∈ order, exit_status i = 0) :
    submit_jobs cmdlist order exit_status = [] ∧
    dispatch_total cmdlist = cmdlist.length := by
  refine ⟨?_, rfl⟩
  unfold submit_jobs dispatch_results
  apply failed_of_all_zero
  intro r hr
  rw [List.mem_map] at hr
  obtain ⟨i, hi, hie⟩ := hr
  rw [← hie]
  exact h i hi

/-- C8 (witness): two all-successful jobs leave the failed collection
empty, with total two. -/
theorem C8_all_success_no_failed_witness :
    submit_jobs ["cmdA", "cmdB"] [1, 0] (fun _ => 0) = [] ∧
    dispatch_total ["cmdA", "cmdB"] = 2 :=
  C8_all_success_no_failed ["cmdA", "cmdB"] [1, 0] (fun _ => 0) (fun _ _ => rfl)

/-- C9: `create_dir` never removes the contents of an existing non-empty
directory unless the explicit flag `yes` is given or the operator is
interactively consulted under `ask`: with flag `no`, and with any
unrecognized flag value, it never clears; and whenever it does clear, the
flag was `yes`, or it was `ask` and the stripped, lowercased interactive
response was empty (the default of the prompt) or began with `y`. -/
theorem C9_no_silent_clear (is_dir : Bool) (listdir : List String)
    (clear resp : String) :
    (clear = "no" → create_dir_clears is_dir listdir clear resp = false) ∧
    (clear ∉ (["ask", "yes", "no"] : List String) →
      create_dir_clears is_dir listdir clear resp = false) ∧
    (create_dir_clears is_dir listdir clear resp = true →
      clear = "yes" ∨ (clear = "ask" ∧
        (pyLower (pyStrip resp) = "" ∨
          pyStartsWith (pyLower (pyStrip resp)) "y" = true))) := by
  refine ⟨?_, ?_, ?_⟩
  · intro h
    subst h
    unfold create_dir_clears
    by_cases hg : is_dir ∧ 0 < listdir.length
    · rw [if_pos hg]
      have hch : create_dir_choice "no" resp = "n" := rfl
      rw [hch]
      decide
    · rw [if_neg hg]
  · intro h
    unfold create_dir_clears
    by_cases hg : is_dir ∧ 0 < listdir.length
    · rw [if_pos hg]
      have h1 : clear ≠ "ask" := fun e => h (by rw [e]; simp)
      have h2 : clear ≠ "yes" := fun e => h (by rw [e]; simp)
      have h3 : clear ≠ "no" := fun e => h (by rw [e]; simp)
      have hch : create_dir_choice clear resp = "n" := by
        unfold create_dir_choice
        rw [if_neg h1, if_neg h2, if_neg h3]
      rw [hch]
      decide
    · rw [if_neg hg]
  · intro hc
    unfold create_dir_clears at hc
    by_cases hg : is_dir ∧ 0 < listdir.length
    · rw [if_pos hg] at hc
      by_cases h1 : clear = "ask"
      · right
        refine ⟨h1, ?_⟩
        subst h1
        have hch : create_dir_choice "ask" resp = pyLower (pyStrip resp) := rfl
        rw [hch, Bool.or_eq_true, beq_iff_eq] at hc
        exact hc
      · by_cases h2 : clear = "yes"
        · exact Or.inl h2
        · by_cases h3 : clear = "no"
          · exfalso
            subst h3
            have hch : create_dir_choice "no" resp = "n" := rfl
            rw [hch] at hc
            exact absurd hc (by decide)
          · exfalso
            have hch : create_dir_choice clear resp = "n" := by
              unfold create_dir_choice
              rw [if_neg h1, if_neg h2, if_neg h3]
            rw [hch] at hc
            exact absurd hc (by decide)
    · rw [if_neg hg] at hc
      exact absurd hc (by decide)

/-- C9 (witness): with flag `no` the directory is not cleared even when
the interactive response would have said yes. -/
theorem C9_no_silent_clear_witness :
    create_dir_clears true ["f.txt"] "no" "y" = false :=
  (C9_no_silent_clear true ["f.txt"] "no" "y").1 rfl

/-- C7 (amended): `create_jobs` performs no filesystem existence check at
all: its result is independent of which paths exist, and it succeeds
exactly on non-empty input lists (the only failure is the `IndexError` of
the logging line on an empty list), never a validation error for a missing
output directory or script. -/
theorem C7_no_existence_check (fs fs2 : String → Bool) (outdir script : String)
    (infiles : List String) (q b2opt : String) :
    create_jobsFS fs outdir script infiles q b2opt =
      create_jobsFS fs2 outdir script infiles q b2opt ∧
    (create_jobsFS fs outdir script infiles q b2opt).isOk = !infiles.isEmpty := by
  refine ⟨rfl, ?_⟩
  unfold create_jobsFS create_jobs
  cases infiles with
  | nil => rfl
  | cons a l => rfl

/-- C7 (counterexample): with a filesystem on which neither the output
directory nor the script exists, `create_jobs` does not fail with a
validation error; it returns the command list. -/
theorem C7_counterexample :
    ((fun _ => false) : String → Bool) "out" = false ∧
    ((fun _ => false) : String → Bool) "steer.py" = false ∧
    create_jobsFS (fun _ => false) "out" "steer.py" ["data/x.mdst"] "s" "" =
      .ok ["bsub -q s -oo out/x.mdst.log basf2  steer.py data/x.mdst out/ntuple.x.mdst >> bsub.log"] :=
  ⟨rfl, rfl, rfl⟩

/-- C1: with two jobs of which job 0 fails (exit status 1) and job 1
succeeds, completing in the order job 1 then job 0 (a permutation of the
indices), the failed collection computed by `submit_jobs` is the four
characters of the string of job 1 — not a one-element collection holding
job 0 as the claim requires: the loop pairs completion-ordered results
with submission-ordered commands and extends the list with the characters
of the attributed command. -/
theorem C1_failed_chars_of_wrong_job :
    ([1, 0] : List Nat).Perm (List.range 2) ∧
    ((fun i => if i = 0 then 1 else 0) : Nat → Nat) 0 = 1 ∧
    ((fun i => if i = 0 then 1 else 0) : Nat → Nat) 1 = 0 ∧
    submit_jobs ["cmdA", "cmdB"] [1, 0] (fun i => if i = 0 then 1 else 0) =
      ['c', 'm', 'd', 'B'] := by
  refine ⟨by decide, rfl, rfl, by decide⟩

/-- C2: on the empty input sequence `create_jobs` does not return an empty
job list: line 120 indexes `cmdlist[0]` and raises `IndexError`.  The
dispatcher half of the claim holds: on the empty job sequence
`submit_jobs` yields an empty failed collection and total zero. -/
theorem C2_create_jobs_empty_raises :
    create_jobs "out" "steer.py" [] "s" "" = .error .indexError ∧
    submit_jobs [] [] (fun _ => 0) = [] ∧
    dispatch_total [] = 0 :=
  ⟨rfl, rfl, rfl⟩

/-- C6: the command built by `create_jobs` does not embed the given queue
name: invoked with queue `l`, it embeds the literal queue `s` (the queue
parameter is unused by the f-string at line 117), while script, options,
input path, log path and output path are embedded as claimed. -/
theorem C6_queue_hardcoded :
    create_jobs "out" "steer.py" ["data/x.mdst"] "l" "-n 100" =
      .ok ["bsub -q s -oo out/x.mdst.log basf2 -n 100 steer.py data/x.mdst out/ntuple.x.mdst >> bsub.log"] := by
  rfl
